import Mathlib

/-!
Shallow embedding of the secureDos session service
(`auth_service/instance_manager.py` and `auth_service/main.py`).

The `InstanceManager` keeps an in-memory map from session id to a live
`Instance` (display slot, websocket port, spawned process handles).  The
`SessionStore` keeps durable session records (modelled as a list mirroring
the sqlite `sessions` table) and drives the manager: create, validate with
an expiry sweep, delete.

External effects (process spawning, VNC server start, process death upon
SIGTERM) are determinized by a `Backend` oracle; the world of spawned
processes and running VNC displays is an explicit `Sys` state threaded
through every operation.  Fallible operations return `Except String`,
the error string mirroring the `InstanceError` message raised by the code.
-/

namespace SecureDos

/-- A spawned process handle (`subprocess.Popen`).  `running` models
`poll() is None`; `termRequested` records that `terminate()` was called;
`killed` records that `kill()` was called. -/
structure ProcInfo where
  pid : Nat
  running : Bool
  termRequested : Bool
  killed : Bool
deriving DecidableEq, Repr

/-- Oracle determinizing the external world: whether starting the VNC
server at a display succeeds, whether spawning dosbox / websockify
succeeds, and whether a given process actually dies when terminated. -/
structure Backend where
  vncOk : Nat → Bool
  dosboxOk : Nat → Bool
  wsOk : Nat → Bool
  dies : Nat → Bool

/-- The external world: a fresh-pid counter, the table of every spawned
process, and the set of displays whose VNC server is currently up. -/
structure Sys where
  nextPid : Nat
  procs : List ProcInfo
  vncUp : List Nat
deriving DecidableEq, Repr

def Sys.empty : Sys := { nextPid := 0, procs := [], vncUp := [] }

/-- `subprocess.Popen(...)`: allocate a fresh pid, record a running process. -/
def spawn (s : Sys) : Nat × Sys :=
  (s.nextPid,
   { s with nextPid := s.nextPid + 1,
            procs := s.procs ++ [⟨s.nextPid, true, false, false⟩] })

/-- Effect of `proc.terminate()` (guarded by `proc.poll() is None`) on one
table entry: the process stops running only if the oracle says it dies. -/
def termOne (b : Backend) (pid : Nat) (p : ProcInfo) : ProcInfo :=
  if p.pid = pid then
    if p.running then
      { p with termRequested := true, running := !(b.dies pid) }
    else p
  else p

/-- Rollback-style stop: `if proc.poll() is None: proc.terminate()`
(no grace-period wait, no forced kill). -/
def terminateIfRunning (b : Backend) (s : Sys) (pid : Nat) : Sys :=
  { s with procs := s.procs.map (termOne b pid) }

/-- `stop_session`-style stop of one process: terminate, wait up to the
grace period, kill if still running.  After this the process is not
running in either case. -/
def stopOne (b : Backend) (pid : Nat) (p : ProcInfo) : ProcInfo :=
  if p.pid = pid then
    if p.running then
      if b.dies pid then { p with termRequested := true, running := false }
      else { p with termRequested := true, killed := true, running := false }
    else p
  else p

def stopPidFull (b : Backend) (s : Sys) (pid : Nat) : Sys :=
  { s with procs := s.procs.map (stopOne b pid) }

def stopPids (b : Backend) (s : Sys) (pids : List Nat) : Sys :=
  pids.foldl (stopPidFull b) s

/-- `vncserver -kill :display` — best-effort, the display is no longer up. -/
def vncKill (s : Sys) (d : Nat) : Sys :=
  { s with vncUp := s.vncUp.erase d }

def vncFailMsg (d : Nat) : String :=
  "Failed to start VNC server (display :" ++ toString d ++ ")"

def dosboxFailMsg (d : Nat) : String :=
  "Failed to spawn dosbox (display :" ++ toString d ++ ")"

def wsFailMsg (p : Nat) : String :=
  "Failed to spawn websockify (port " ++ toString p ++ ")"

def provisionFailMsg (cause : String) : String :=
  "Failed to provision session: " ++ cause

def resumeFailMsg (cause : String) : String :=
  "Failed to resume session: " ++ cause

def slotsExhaustedMsg : String := "No free session slots available"

/-- `InstanceManager._start_vnc`: first `vncserver -kill :display`
(idempotent cleanup), then start the server; returns the new world and
whether the start succeeded. -/
def startVnc (b : Backend) (s : Sys) (d : Nat) : Sys × Bool :=
  let s1 := vncKill s d
  if b.vncOk d then ({ s1 with vncUp := d :: s1.vncUp }, true)
  else (s1, false)

/-- A live per-session instance (`Instance` dataclass): session id,
username, display, websocket port and the tuple of tracked processes
(dosbox and websockify; the VNC server daemonizes and is not tracked). -/
structure Instance where
  session_id : String
  username : String
  display : Nat
  websocket_port : Nat
  processes : List Nat
deriving DecidableEq, Repr

/-- Configuration of the `InstanceManager` constructor. -/
structure IMConfig where
  base_display : Nat
  max_instances : Nat
  base_websocket_port : Nat
deriving DecidableEq, Repr

/-- `InstanceManager` mutable state: the `_instances` dict (as an
association list; keys are unique in every reachable state) plus the
external world. -/
structure IMState where
  instances : List (String × Instance)
  sys : Sys
deriving DecidableEq, Repr

def IMState.empty : IMState := { instances := [], sys := Sys.empty }

def lookupInst (insts : List (String × Instance)) (sid : String) :
    Option Instance :=
  (insts.find? (fun e => e.1 == sid)).map (·.2)

def usedDisplays (insts : List (String × Instance)) : List Nat :=
  insts.map (fun e => e.2.display)

/-- The loop body of `_allocate_slot`: scan offsets `off, off+1, ...` for
`fuel` steps, returning the first offset whose display is unused. -/
def findFree (used : List Nat) (base : Nat) : Nat → Nat → Option Nat
  | 0, _ => none
  | Nat.succ fuel, off =>
    if (base + off) ∈ used then findFree used base fuel (off + 1)
    else some off

/-- `InstanceManager._allocate_slot`: lowest offset in `[0, max_instances)`
whose display `base_display + offset` is not held by a live instance;
the websocket port uses the same offset. -/
def allocate_slot (cfg : IMConfig) (insts : List (String × Instance)) :
    Option (Nat × Nat) :=
  match findFree (usedDisplays insts) cfg.base_display cfg.max_instances 0 with
  | some off => some (cfg.base_display + off, cfg.base_websocket_port + off)
  | none => none

/-- The `except` block of `start_session` / `ensure_session`: terminate
(without waiting or killing) every process started by this attempt, then
`vncserver -kill` the display. -/
def rollback (b : Backend) (s : Sys) (pids : List Nat) (d : Nat) : Sys :=
  vncKill (pids.foldl (terminateIfRunning b) s) d

/-- `InstanceManager.start_session`: return the existing binding if the
session is already live; otherwise allocate the lowest free slot, start
VNC, dosbox, websockify in order, rolling back on the first failure. -/
def start_session (b : Backend) (cfg : IMConfig) (st : IMState)
    (sid user : String) : IMState × Except String (Nat × Nat) :=
  match lookupInst st.instances sid with
  | some inst => (st, .ok (inst.display, inst.websocket_port))
  | none =>
    match allocate_slot cfg st.instances with
    | none => (st, .error slotsExhaustedMsg)
    | some (d, p) =>
      let (s1, vncStarted) := startVnc b st.sys d
      if vncStarted then
        if b.dosboxOk d then
          let (pid1, s2) := spawn s1
          if b.wsOk p then
            let (pid2, s3) := spawn s2
            ({ instances := (sid, ⟨sid, user, d, p, [pid1, pid2]⟩) :: st.instances,
               sys := s3 }, .ok (d, p))
          else
            ({ st with sys := rollback b s2 [pid1] d },
             .error (provisionFailMsg (wsFailMsg p)))
        else
          ({ st with sys := rollback b s1 [] d },
           .error (provisionFailMsg (dosboxFailMsg d)))
      else
        ({ st with sys := rollback b s1 [] d },
         .error (provisionFailMsg (vncFailMsg d)))

/-- `InstanceManager.ensure_session`: no-op if the session is already
live; otherwise start the three resources at the caller-specified display
and websocket port (no slot-conflict check), rolling back on the first
failure with a resume-failure error. -/
def ensure_session (b : Backend) (st : IMState)
    (sid user : String) (d p : Nat) : IMState × Except String Unit :=
  match lookupInst st.instances sid with
  | some _ => (st, .ok ())
  | none =>
    let (s1, vncStarted) := startVnc b st.sys d
    if vncStarted then
      if b.dosboxOk d then
        let (pid1, s2) := spawn s1
        if b.wsOk p then
          let (pid2, s3) := spawn s2
          ({ instances := (sid, ⟨sid, user, d, p, [pid1, pid2]⟩) :: st.instances,
             sys := s3 }, .ok ())
        else
          ({ st with sys := rollback b s2 [pid1] d },
           .error (resumeFailMsg (wsFailMsg p)))
      else
        ({ st with sys := rollback b s1 [] d },
         .error (resumeFailMsg (dosboxFailMsg d)))
    else
      ({ st with sys := rollback b s1 [] d },
       .error (resumeFailMsg (vncFailMsg d)))

/-- `InstanceManager.stop_session`: pop the instance (no-op if absent);
for each tracked process terminate, wait up to the grace period, kill if
still running; finally `vncserver -kill` the display. -/
def stop_session (b : Backend) (st : IMState) (sid : String) : IMState :=
  match lookupInst st.instances sid with
  | none => st
  | some inst =>
    { instances := st.instances.filter (fun e => !(e.1 == sid)),
      sys := vncKill (stopPids b st.sys inst.processes) inst.display }

/-- `InstanceManager.stop_all`: stop every currently live session. -/
def stop_all (b : Backend) (st : IMState) : IMState :=
  (st.instances.map (·.1)).foldl (stop_session b) st

/-- A row of the sqlite `sessions` table.  `display` and
`websocket_port` are nullable columns. -/
structure SessionRecord where
  session_id : String
  username : String
  display : Option Nat
  websocket_port : Option Nat
  created_at : Int
  last_seen : Int
deriving DecidableEq, Repr

/-- `SessionStore` configuration: the two timeouts plus the manager's
configuration. -/
structure StoreConfig where
  idle_timeout : Int
  absolute_timeout : Int
  im_cfg : IMConfig
deriving DecidableEq, Repr

/-- `SessionStore` state: the durable table plus the instance manager. -/
structure StoreState where
  db : List SessionRecord
  im : IMState
deriving DecidableEq, Repr

def StoreState.empty : StoreState := { db := [], im := IMState.empty }

/-- The sweep predicate of `_cleanup_expired`:
`(now - last_seen) > idle_timeout OR (now - created_at) > absolute_timeout`. -/
def isStale (sc : StoreConfig) (now : Int) (r : SessionRecord) : Bool :=
  decide (now - r.last_seen > sc.idle_timeout) ||
  decide (now - r.created_at > sc.absolute_timeout)

def dbIds (db : List SessionRecord) : List String :=
  db.map (·.session_id)

def instKeys (insts : List (String × Instance)) : List String :=
  insts.map (·.1)

/-- `SessionStore._cleanup_expired`: select the stale rows, delete them
in one batch, commit, then stop each stale session's instance. -/
def cleanup_expired (b : Backend) (sc : StoreConfig) (now : Int)
    (st : StoreState) : StoreState :=
  let staleIds := (st.db.filter (isStale sc now)).map (·.session_id)
  { db := st.db.filter (fun r => !(isStale sc now r)),
    im := staleIds.foldl (stop_session b) st.im }

/-- `SessionStore.create_session`: delete every record of this username
(and stop each such session's instance), then provision a new instance;
only on success insert the new record with
`created_at = last_seen = now`. -/
def create_session (b : Backend) (sc : StoreConfig) (st : StoreState)
    (sid username : String) (now : Int) :
    StoreState × Except String (Nat × Nat) :=
  let old := (st.db.filter (fun r => r.username == username)).map (·.session_id)
  let db2 := st.db.filter (fun r => !(r.username == username))
  let im2 := old.foldl (stop_session b) st.im
  match start_session b sc.im_cfg im2 sid username with
  | (im3, .error e) => ({ db := db2, im := im3 }, .error e)
  | (im3, .ok (d, p)) =>
    ({ db := db2 ++ [⟨sid, username, some d, some p, now, now⟩],
       im := im3 }, .ok (d, p))

/-- The dictionary `validate` returns on success. -/
structure ValidateResult where
  username : String
  created_at : Int
  last_seen : Int
  display : Nat
  websocket_port : Nat
deriving DecidableEq, Repr

/-- `SessionStore.validate`: empty key returns `none` at once; otherwise
run the expiry sweep, look the record up, update its `last_seen`, treat a
null slot as invalid (`none`), and finally `ensure_session` at the
recorded display and port (errors from ensure propagate). -/
def validate (b : Backend) (sc : StoreConfig) (st : StoreState)
    (sid : String) (now : Int) :
    StoreState × Except String (Option ValidateResult) :=
  if sid == "" then (st, .ok none)
  else
    let st1 := cleanup_expired b sc now st
    match st1.db.find? (fun r => r.session_id == sid) with
    | none => (st1, .ok none)
    | some r =>
      let db2 := st1.db.map
        (fun q => if q.session_id == sid then { q with last_seen := now } else q)
      match r.display, r.websocket_port with
      | some d, some p =>
        match ensure_session b st1.im sid r.username d p with
        | (im2, .error e) => ({ db := db2, im := im2 }, .error e)
        | (im2, .ok _) =>
          ({ db := db2, im := im2 },
           .ok (some ⟨r.username, r.created_at, r.last_seen, d, p⟩))
      | _, _ => ({ db := db2, im := st1.im }, .ok none)

/-- `SessionStore.delete`: no-op on an empty key; otherwise delete the
record (no-op if absent) and stop the session's instance. -/
def delete (b : Backend) (st : StoreState) (sid : String) : StoreState :=
  if sid == "" then st
  else { db := st.db.filter (fun r => !(r.session_id == sid)),
         im := stop_session b st.im sid }

/-- Slot-index exclusivity of the live map: pairwise-distinct session keys
and pairwise-distinct displays. -/
def slotExclusive (insts : List (String × Instance)) : Prop :=
  insts.Pairwise (fun a b => a.1 ≠ b.1 ∧ a.2.display ≠ b.2.display)

/-- Well-formedness of the process table: every recorded pid was issued
by the counter. -/
def sysWF (s : Sys) : Prop := ∀ pr ∈ s.procs, pr.pid < s.nextPid

/-- Number of free slots of the pool: offsets in `[0, max_instances)`
whose display no live instance currently holds. -/
def freeCount (cfg : IMConfig) (insts : List (String × Instance)) : Nat :=
  ((List.range cfg.max_instances).filter
    (fun off => !(decide ((cfg.base_display + off) ∈ usedDisplays insts)))).length

/-- A backend on which every provisioning step succeeds. -/
def allOk (b : Backend) : Prop :=
  (∀ d, b.vncOk d = true) ∧ (∀ d, b.dosboxOk d = true) ∧ (∀ p, b.wsOk p = true)

/-- The cause string of the first failing step of an ensure attempt at
display `d` and port `p` (meaningful when some step fails). -/
def ensureFailCause (b : Backend) (d p : Nat) : String :=
  if b.vncOk d then
    (if b.dosboxOk d then wsFailMsg p else dosboxFailMsg d)
  else vncFailMsg d

/- Concrete fixtures used by witnesses and counterexamples. -/

def bAllW : Backend := ⟨fun _ => true, fun _ => true, fun _ => true, fun _ => true⟩

def bWsFailW : Backend := ⟨fun _ => true, fun _ => true, fun _ => false, fun _ => false⟩

def cfgW : IMConfig := ⟨11, 5, 7700⟩

def scW : StoreConfig := ⟨10, 100, cfgW⟩

def instW : List (String × Instance) := [("s1", ⟨"s1", "u", 11, 7700, [0, 1]⟩)]

def cfg2W : IMConfig := ⟨11, 2, 7700⟩

def cfg1W : IMConfig := ⟨11, 1, 7700⟩

/-- State after provisioning one session on an all-ok backend. -/
def c1State : IMState := (start_session bAllW cfgW IMState.empty "s1" "u").1

/-- State after additionally ensuring a second session at the same slot. -/
def c1State2 : IMState := (ensure_session bAllW c1State "s2" "u" 11 7700).1

def recStaleW : SessionRecord := ⟨"s1", "u", some 11, some 7700, 0, 0⟩

def recNullW : SessionRecord := ⟨"s2", "u", none, some 7700, 49, 49⟩

def recFreshW : SessionRecord := ⟨"s3", "u", some 11, some 7700, 49, 49⟩

def recC5W : SessionRecord := ⟨"s5", "u", some 12, some 7702, 49, 49⟩

def stC9 : StoreState := { db := [recStaleW, recNullW], im := IMState.empty }

def stC4 : StoreState := { db := [recStaleW], im := IMState.empty }

def stC4b : StoreState := { db := [recStaleW, recFreshW], im := IMState.empty }

def stC5 : StoreState := { db := [recC5W], im := IMState.empty }

def imLiveW : IMState :=
  { instances := [("s5", ⟨"s5", "u", 12, 7702, [0, 1]⟩)], sys := Sys.empty }

def stC10 : StoreState := { db := [recC5W], im := imLiveW }

/-- A record whose `last_seen` is exactly `now - idleTimeout - 1` for
`now = 50` and the witness configuration's idle timeout of 10. -/
def recIdleW : SessionRecord := ⟨"s1", "u", some 11, some 7700, 39, 39⟩

def stC4idle : StoreState := { db := [recIdleW], im := IMState.empty }

/-! ### Basic lemmas about the slot scan -/

theorem findFree_some {used : List Nat} {base : Nat} :
    ∀ {fuel off k : Nat}, findFree used base fuel off = some k →
      off ≤ k ∧ k < off + fuel ∧ (base + k) ∉ used ∧
      ∀ j, off ≤ j → j < k → (base + j) ∈ used := by
  intro fuel
  induction fuel with
  | zero => intro off k h; simp [findFree] at h
  | succ n ih =>
    intro off k h
    rw [findFree] at h
    by_cases hm : (base + off) ∈ used
    · simp only [hm, if_pos] at h
      obtain ⟨h1, h2, h3, h4⟩ := ih h
      refine ⟨by omega, by omega, h3, ?_⟩
      intro j hj1 hj2
      rcases Nat.eq_or_lt_of_le hj1 with rfl | hlt
      · exact hm
      · exact h4 j hlt hj2
    · simp only [hm, if_neg, not_false_iff, Option.some.injEq] at h
      subst h
      exact ⟨le_refl _, by omega, hm, by omega⟩

theorem findFree_none {used : List Nat} {base : Nat} :
    ∀ {fuel off : Nat}, findFree used base fuel off = none →
      ∀ j, off ≤ j → j < off + fuel → (base + j) ∈ used := by
  intro fuel
  induction fuel with
  | zero => intro off _ j h1 h2; omega
  | succ n ih =>
    intro off h j h1 h2
    rw [findFree] at h
    by_cases hm : (base + off) ∈ used
    · simp only [hm, if_pos] at h
      rcases Nat.eq_or_lt_of_le h1 with rfl | hlt
      · exact hm
      · exact ih h j hlt (by omega)
    · simp [hm] at h

theorem allocate_slot_some {cfg : IMConfig} {insts : List (String × Instance)}
    {d p : Nat} (h : allocate_slot cfg insts = some (d, p)) :
    ∃ k, k < cfg.max_instances ∧ d = cfg.base_display + k ∧
      p = cfg.base_websocket_port + k ∧ (cfg.base_display + k) ∉ usedDisplays insts := by
  unfold allocate_slot at h
  cases hf : findFree (usedDisplays insts) cfg.base_display cfg.max_instances 0 with
  | none => rw [hf] at h; simp at h
  | some k =>
    rw [hf] at h
    obtain ⟨_, h2, h3, _⟩ := findFree_some hf
    simp only [Option.some.injEq, Prod.mk.injEq] at h
    exact ⟨k, by omega, h.1.symm, h.2.symm, h3⟩

/-! ### Branch lemmas for the manager's operations -/

theorem startVnc_true {b : Backend} {d : Nat} (s : Sys) (h : b.vncOk d = true) :
    startVnc b s d = ({ vncKill s d with vncUp := d :: (vncKill s d).vncUp }, true) := by
  simp [startVnc, h]

theorem startVnc_false {b : Backend} {d : Nat} (s : Sys) (h : b.vncOk d = false) :
    startVnc b s d = (vncKill s d, false) := by
  simp [startVnc, h]

theorem lookupInst_eq_none {insts : List (String × Instance)} {sid : String} :
    lookupInst insts sid = none ↔ ∀ e ∈ insts, e.1 ≠ sid := by
  simp [lookupInst, List.find?_eq_none]

theorem lookupInst_eq_none_iff_keys {insts : List (String × Instance)}
    {sid : String} : lookupInst insts sid = none ↔ sid ∉ instKeys insts := by
  rw [lookupInst_eq_none]
  simp only [instKeys]
  constructor
  · intro h hmem
    obtain ⟨e, he, heq⟩ := List.mem_map.mp hmem
    exact h e he heq
  · intro h e he heq
    exact h (List.mem_map.mpr ⟨e, he, heq⟩)

theorem start_session_ok {b : Backend} {cfg : IMConfig} {st : IMState}
    {sid user : String} {d p : Nat}
    (hl : lookupInst st.instances sid = none)
    (ha : allocate_slot cfg st.instances = some (d, p))
    (hv : b.vncOk d = true) (hd : b.dosboxOk d = true) (hw : b.wsOk p = true) :
    start_session b cfg st sid user =
      ({ instances :=
           (sid, ⟨sid, user, d, p, [st.sys.nextPid, st.sys.nextPid + 1]⟩) :: st.instances,
         sys := { nextPid := st.sys.nextPid + 2,
                  procs := st.sys.procs ++
                    [⟨st.sys.nextPid, true, false, false⟩,
                     ⟨st.sys.nextPid + 1, true, false, false⟩],
                  vncUp := d :: st.sys.vncUp.erase d } }, .ok (d, p)) := by
  simp [start_session, hl, ha, startVnc_true _ hv, hd, hw, spawn, vncKill]

theorem start_session_wsFail {b : Backend} {cfg : IMConfig} {st : IMState}
    {sid user : String} {d p : Nat}
    (hl : lookupInst st.instances sid = none)
    (ha : allocate_slot cfg st.instances = some (d, p))
    (hv : b.vncOk d = true) (hd : b.dosboxOk d = true) (hw : b.wsOk p = false) :
    start_session b cfg st sid user =
      ({ st with sys :=
           { st.sys with
             nextPid := st.sys.nextPid + 1,
             procs := st.sys.procs.map (termOne b st.sys.nextPid) ++
               [⟨st.sys.nextPid, !(b.dies st.sys.nextPid), true, false⟩],
             vncUp := st.sys.vncUp.erase d } },
       .error (provisionFailMsg (wsFailMsg p))) := by
  simp [start_session, hl, ha, startVnc_true _ hv, hd, hw, spawn, vncKill,
    rollback, terminateIfRunning, termOne]

theorem start_session_dosboxFail {b : Backend} {cfg : IMConfig} {st : IMState}
    {sid user : String} {d p : Nat}
    (hl : lookupInst st.instances sid = none)
    (ha : allocate_slot cfg st.instances = some (d, p))
    (hv : b.vncOk d = true) (hd : b.dosboxOk d = false) :
    start_session b cfg st sid user =
      ({ st with sys := { st.sys with vncUp := st.sys.vncUp.erase d } },
       .error (provisionFailMsg (dosboxFailMsg d))) := by
  simp [start_session, hl, ha, startVnc_true _ hv, hd, vncKill, rollback]

theorem start_session_vncFail {b : Backend} {cfg : IMConfig} {st : IMState}
    {sid user : String} {d p : Nat}
    (hl : lookupInst st.instances sid = none)
    (ha : allocate_slot cfg st.instances = some (d, p))
    (hv : b.vncOk d = false) :
    start_session b cfg st sid user =
      ({ st with sys :=
           { st.sys with vncUp := (st.sys.vncUp.erase d).erase d } },
       .error (provisionFailMsg (vncFailMsg d))) := by
  simp [start_session, hl, ha, startVnc_false _ hv, vncKill, rollback]

theorem start_session_live {b : Backend} {cfg : IMConfig} {st : IMState}
    {sid user : String} {inst : Instance}
    (hl : lookupInst st.instances sid = some inst) :
    start_session b cfg st sid user = (st, .ok (inst.display, inst.websocket_port)) := by
  simp [start_session, hl]

theorem start_session_exhausted {b : Backend} {cfg : IMConfig} {st : IMState}
    {sid user : String}
    (hl : lookupInst st.instances sid = none)
    (ha : allocate_slot cfg st.instances = none) :
    start_session b cfg st sid user = (st, .error slotsExhaustedMsg) := by
  simp [start_session, hl, ha]

theorem ensure_session_ok {b : Backend} {st : IMState}
    {sid user : String} {d p : Nat}
    (hl : lookupInst st.instances sid = none)
    (hv : b.vncOk d = true) (hd : b.dosboxOk d = true) (hw : b.wsOk p = true) :
    ensure_session b st sid user d p =
      ({ instances :=
           (sid, ⟨sid, user, d, p, [st.sys.nextPid, st.sys.nextPid + 1]⟩) :: st.instances,
         sys := { nextPid := st.sys.nextPid + 2,
                  procs := st.sys.procs ++
                    [⟨st.sys.nextPid, true, false, false⟩,
                     ⟨st.sys.nextPid + 1, true, false, false⟩],
                  vncUp := d :: st.sys.vncUp.erase d } }, .ok ()) := by
  simp [ensure_session, hl, startVnc_true _ hv, hd, hw, spawn, vncKill]

theorem ensure_session_wsFail {b : Backend} {st : IMState}
    {sid user : String} {d p : Nat}
    (hl : lookupInst st.instances sid = none)
    (hv : b.vncOk d = true) (hd : b.dosboxOk d = true) (hw : b.wsOk p = false) :
    ensure_session b st sid user d p =
      ({ st with sys :=
           { st.sys with
             nextPid := st.sys.nextPid + 1,
             procs := st.sys.procs.map (termOne b st.sys.nextPid) ++
               [⟨st.sys.nextPid, !(b.dies st.sys.nextPid), true, false⟩],
             vncUp := st.sys.vncUp.erase d } },
       .error (resumeFailMsg (wsFailMsg p))) := by
  simp [ensure_session, hl, startVnc_true _ hv, hd, hw, spawn, vncKill,
    rollback, terminateIfRunning, termOne]

theorem ensure_session_dosboxFail {b : Backend} {st : IMState}
    {sid user : String} {d p : Nat}
    (hl : lookupInst st.instances sid = none)
    (hv : b.vncOk d = true) (hd : b.dosboxOk d = false) :
    ensure_session b st sid user d p =
      ({ st with sys := { st.sys with vncUp := st.sys.vncUp.erase d } },
       .error (resumeFailMsg (dosboxFailMsg d))) := by
  simp [ensure_session, hl, startVnc_true _ hv, hd, vncKill, rollback]

theorem ensure_session_vncFail {b : Backend} {st : IMState}
    {sid user : String} {d p : Nat}
    (hl : lookupInst st.instances sid = none)
    (hv : b.vncOk d = false) :
    ensure_session b st sid user d p =
      ({ st with sys :=
           { st.sys with vncUp := (st.sys.vncUp.erase d).erase d } },
       .error (resumeFailMsg (vncFailMsg d))) := by
  simp [ensure_session, hl, startVnc_false _ hv, vncKill, rollback]

theorem ensure_session_live {b : Backend} {st : IMState}
    {sid user : String} {d p : Nat} {inst : Instance}
    (hl : lookupInst st.instances sid = some inst) :
    ensure_session b st sid user d p = (st, .ok ()) := by
  simp [ensure_session, hl]

theorem stop_session_absent {b : Backend} {st : IMState} {sid : String}
    (h : lookupInst st.instances sid = none) :
    stop_session b st sid = st := by
  simp [stop_session, h]

theorem stop_session_live {b : Backend} {st : IMState} {sid : String}
    {inst : Instance} (h : lookupInst st.instances sid = some inst) :
    stop_session b st sid =
      { instances := st.instances.filter (fun e => !(e.1 == sid)),
        sys := vncKill (stopPids b st.sys inst.processes) inst.display } := by
  simp [stop_session, h]

theorem termOne_pid (b : Backend) (pid : Nat) (q : ProcInfo) :
    (termOne b pid q).pid = q.pid := by
  unfold termOne
  split <;> [skip; rfl]
  split <;> rfl

theorem stop_session_keys_subset {b : Backend} {st : IMState} {k j : String}
    (h : j ∉ instKeys st.instances) :
    j ∉ instKeys (stop_session b st k).instances := by
  cases hl : lookupInst st.instances k with
  | none => rw [stop_session_absent hl]; exact h
  | some inst =>
    rw [stop_session_live hl]
    intro hmem
    apply h
    simp only [instKeys, List.mem_map] at hmem ⊢
    obtain ⟨e, he, heq⟩ := hmem
    exact ⟨e, (List.mem_filter.mp he).1, heq⟩

theorem stop_session_key_removed {b : Backend} {st : IMState} {k : String} :
    k ∉ instKeys (stop_session b st k).instances := by
  cases hl : lookupInst st.instances k with
  | none => rw [stop_session_absent hl]; exact lookupInst_eq_none_iff_keys.mp hl
  | some inst =>
    rw [stop_session_live hl]
    intro hmem
    simp only [instKeys, List.mem_map] at hmem
    obtain ⟨e, he, heq⟩ := hmem
    have h2 := (List.mem_filter.mp he).2
    simp only [Bool.not_eq_true', beq_eq_false_iff_ne] at h2
    exact h2 heq

theorem foldl_stop_session_not_mem {b : Backend} {j : String} :
    ∀ (sids : List String) (st : IMState), j ∉ instKeys st.instances →
      j ∉ instKeys (sids.foldl (stop_session b) st).instances := by
  intro sids
  induction sids with
  | nil => intro st h; exact h
  | cons k tl ih => intro st h; exact ih _ (stop_session_keys_subset h)

theorem foldl_stop_session_mem_removed {b : Backend} {j : String} :
    ∀ (sids : List String) (st : IMState), j ∈ sids →
      j ∉ instKeys (sids.foldl (stop_session b) st).instances := by
  intro sids
  induction sids with
  | nil => intro st h; simp at h
  | cons k tl ih =>
    intro st h
    rcases List.mem_cons.mp h with rfl | htl
    · exact foldl_stop_session_not_mem tl _ stop_session_key_removed
    · exact ih _ htl

/-! ### Claim C6: slot allocation rule -/

/-- Claim C6: whenever some index in `[0, maxSlots)` is not held by a live
instance, `allocate` returns the lowest such index `k`, with
`displayId = baseDisplay + k` and `relayPort = basePort + k` for that same
`k`; when all indices are held it fails, and `start_session` then raises
the slots-exhausted error. -/
theorem claim_C6_slot_allocation_rule (b : Backend) (cfg : IMConfig)
    (sys : Sys) (insts : List (String × Instance)) (sid user : String)
    (k : Nat) :
    ((k < cfg.max_instances ∧ (cfg.base_display + k) ∉ usedDisplays insts ∧
        ∀ j, j < k → (cfg.base_display + j) ∈ usedDisplays insts) →
      allocate_slot cfg insts =
        some (cfg.base_display + k, cfg.base_websocket_port + k)) ∧
    ((∀ i, i < cfg.max_instances → (cfg.base_display + i) ∈ usedDisplays insts) →
      allocate_slot cfg insts = none ∧
      (lookupInst insts sid = none →
        (start_session b cfg ⟨insts, sys⟩ sid user).2 = .error slotsExhaustedMsg)) := by
  constructor
  · rintro ⟨hk, hfree, hleast⟩
    cases hf : findFree (usedDisplays insts) cfg.base_display cfg.max_instances 0 with
    | none =>
      exact absurd (findFree_none hf k (Nat.zero_le _) (by omega)) hfree
    | some k' =>
      obtain ⟨_, hk'2, hfree', hleast'⟩ := findFree_some hf
      have hkk : k' = k := by
        rcases Nat.lt_trichotomy k' k with hlt | heq | hgt
        · exact absurd (hleast k' hlt) hfree'
        · exact heq
        · exact absurd (hleast' k (Nat.zero_le _) hgt) hfree
      subst hkk
      simp [allocate_slot, hf]
  · intro hall
    have hnone : findFree (usedDisplays insts) cfg.base_display cfg.max_instances 0 = none := by
      cases hf : findFree (usedDisplays insts) cfg.base_display cfg.max_instances 0 with
      | none => rfl
      | some k' =>
        obtain ⟨_, hk'2, hfree', _⟩ := findFree_some hf
        exact absurd (hall k' (by omega)) hfree'
    have halloc : allocate_slot cfg insts = none := by
      simp [allocate_slot, hnone]
    refine ⟨halloc, fun hl => ?_⟩
    rw [start_session_exhausted hl halloc]

theorem claim_C6_witness :
    allocate_slot cfg2W instW = some (12, 7701) ∧
    allocate_slot cfg1W instW = none := by
  constructor
  · exact (claim_C6_slot_allocation_rule bAllW cfg2W Sys.empty instW "x" "u" 1).1
      ⟨by decide, by decide, by decide⟩
  · exact ((claim_C6_slot_allocation_rule bAllW cfg1W Sys.empty instW "x" "u" 0).2
      (by decide)).1

/-! ### Claim C1: slot-index exclusivity -/

/-- Claim C1 counterexample: `ensure_session` provisions at a
caller-specified slot without checking the live map, so after
provisioning `s1` (which gets display 11) and ensuring `s2` at display
11, two distinct live sessions hold the same slot index. -/
theorem claim_C1_counterexample :
    (lookupInst c1State2.instances "s1").map (·.display) = some 11 ∧
    (lookupInst c1State2.instances "s2").map (·.display) = some 11 ∧
    ¬ slotExclusive c1State2.instances := by
  refine ⟨by decide, by decide, ?_⟩
  intro h
  unfold slotExclusive at h
  exact absurd h (by decide)

/-- Claim C1 (amended): provision and teardown preserve slot-index
exclusivity of the live map, and `ensure` preserves it when the
caller-specified display is not held by any live session; `ensure`
performs no conflict check, so exclusivity under it needs that
freshness assumption. -/
theorem claim_C1_slot_exclusivity (b : Backend) (cfg : IMConfig)
    (st : IMState) (sid user : String) (d p : Nat)
    (hex : slotExclusive st.instances)
    (hfresh : ∀ e ∈ st.instances, e.2.display ≠ d) :
    slotExclusive (start_session b cfg st sid user).1.instances ∧
    slotExclusive (stop_session b st sid).instances ∧
    slotExclusive (ensure_session b st sid user d p).1.instances := by
  refine ⟨?_, ?_, ?_⟩
  · cases hl : lookupInst st.instances sid with
    | some inst => rw [start_session_live hl]; exact hex
    | none =>
      cases ha : allocate_slot cfg st.instances with
      | none => rw [start_session_exhausted hl ha]; exact hex
      | some dp =>
        obtain ⟨d', p'⟩ := dp
        obtain ⟨k, hk, hd', hp', hfree⟩ := allocate_slot_some ha
        subst hd'; subst hp'
        cases hv : b.vncOk (cfg.base_display + k) with
        | false => rw [start_session_vncFail hl ha hv]; exact hex
        | true =>
          cases hd : b.dosboxOk (cfg.base_display + k) with
          | false => rw [start_session_dosboxFail hl ha hv hd]; exact hex
          | true =>
            cases hw : b.wsOk (cfg.base_websocket_port + k) with
            | false => rw [start_session_wsFail hl ha hv hd hw]; exact hex
            | true =>
              rw [start_session_ok hl ha hv hd hw]
              refine List.Pairwise.cons ?_ hex
              intro e he
              refine ⟨fun hkey => (lookupInst_eq_none.mp hl e he) hkey.symm, ?_⟩
              intro hdisp
              have hdisp' : cfg.base_display + k = e.2.display := hdisp
              exact hfree (hdisp' ▸ List.mem_map.mpr ⟨e, he, rfl⟩)
  · cases hl : lookupInst st.instances sid with
    | none => rw [stop_session_absent hl]; exact hex
    | some inst =>
      rw [stop_session_live hl]
      exact hex.sublist (List.filter_sublist _)
  · cases hl : lookupInst st.instances sid with
    | some inst => rw [ensure_session_live hl]; exact hex
    | none =>
      cases hv : b.vncOk d with
      | false => rw [ensure_session_vncFail hl hv]; exact hex
      | true =>
        cases hd : b.dosboxOk d with
        | false => rw [ensure_session_dosboxFail hl hv hd]; exact hex
        | true =>
          cases hw : b.wsOk p with
          | false => rw [ensure_session_wsFail hl hv hd hw]; exact hex
          | true =>
            rw [ensure_session_ok hl hv hd hw]
            refine List.Pairwise.cons ?_ hex
            intro e he
            exact ⟨fun hkey => (lookupInst_eq_none.mp hl e he) hkey.symm,
                   fun hdisp => (hfresh e he) hdisp.symm⟩

theorem claim_C1_witness :
    slotExclusive (start_session bAllW cfgW IMState.empty "s1" "u").1.instances := by
  exact (claim_C1_slot_exclusivity bAllW cfgW IMState.empty "s1" "u" 20 7709
    (by unfold slotExclusive; decide) (by simp [IMState.empty])).1

/-! ### Claim C2: rollback on provisioning failure -/

/-- Claim C2 counterexample: when the websockify step fails, the dosbox
process started earlier in the attempt is only sent a terminate request;
on a backend where it survives terminate it is still running when
`start_session` returns its error, and it was never force-killed — there
is no grace-period-then-kill in the rollback path. -/
theorem claim_C2_counterexample :
    (start_session bWsFailW cfgW IMState.empty "s1" "u").2 =
      .error (provisionFailMsg (wsFailMsg 7700)) ∧
    (start_session bWsFailW cfgW IMState.empty "s1" "u").1.sys.procs =
      [⟨0, true, true, false⟩] := by
  exact ⟨rfl, by decide⟩

/-- Claim C2 (amended): for every provisioning attempt that fails,
every process started by the earlier steps of the attempt has received a
terminate request (with no grace-period wait or forced kill), the live
map is unchanged — so the allocated slot is back in the free set and the
pool's free count is unchanged — and only then does `start_session`
return its error. -/
theorem claim_C2_rollback (b : Backend) (cfg : IMConfig) (st : IMState)
    (sid user : String) (e : String)
    (herr : (start_session b cfg st sid user).2 = .error e) :
    (start_session b cfg st sid user).1.instances = st.instances ∧
    freeCount cfg (start_session b cfg st sid user).1.instances =
      freeCount cfg st.instances ∧
    ∀ pr ∈ (start_session b cfg st sid user).1.sys.procs,
      pr.pid ∉ st.sys.procs.map (·.pid) → pr.termRequested = true := by
  have trivialOld : ∀ (l : List ProcInfo), ∀ pr ∈ l,
      pr.pid ∉ l.map ProcInfo.pid → pr.termRequested = true := by
    intro l pr hpr hnot
    exact absurd (List.mem_map.mpr ⟨pr, hpr, rfl⟩) hnot
  cases hl : lookupInst st.instances sid with
  | some inst => rw [start_session_live hl] at herr; simp at herr
  | none =>
    cases ha : allocate_slot cfg st.instances with
    | none =>
      rw [start_session_exhausted hl ha]
      exact ⟨rfl, rfl, trivialOld _⟩
    | some dp =>
      obtain ⟨d, p⟩ := dp
      cases hv : b.vncOk d with
      | false =>
        rw [start_session_vncFail hl ha hv]
        exact ⟨rfl, rfl, trivialOld _⟩
      | true =>
        cases hd : b.dosboxOk d with
        | false =>
          rw [start_session_dosboxFail hl ha hv hd]
          exact ⟨rfl, rfl, trivialOld _⟩
        | true =>
          cases hw : b.wsOk p with
          | true => rw [start_session_ok hl ha hv hd hw] at herr; simp at herr
          | false =>
            rw [start_session_wsFail hl ha hv hd hw]
            refine ⟨rfl, rfl, ?_⟩
            intro pr hpr hnot
            simp only [List.mem_append, List.mem_map] at hpr
            rcases hpr with ⟨q, hq, rfl⟩ | hnew
            · exfalso
              apply hnot
              rw [termOne_pid]
              exact List.mem_map.mpr ⟨q, hq, rfl⟩
            · simp only [List.mem_singleton] at hnew
              subst hnew
              rfl

theorem claim_C2_witness :
    (start_session bWsFailW cfgW IMState.empty "s1" "u").1.instances = [] ∧
    freeCount cfgW (start_session bWsFailW cfgW IMState.empty "s1" "u").1.instances =
      freeCount cfgW IMState.empty.instances := by
  have h := claim_C2_rollback bWsFailW cfgW IMState.empty "s1" "u"
    (provisionFailMsg (wsFailMsg 7700)) rfl
  exact ⟨h.1, h.2.1⟩


/-! ### Store-level helper lemmas -/

theorem find?_record_eq {l : List SessionRecord} {r : SessionRecord}
    {sid : String} (hnd : (dbIds l).Nodup) (hr : r ∈ l)
    (hid : r.session_id = sid) :
    l.find? (fun q => q.session_id == sid) = some r := by
  induction l with
  | nil => simp at hr
  | cons a tl ih =>
    rw [dbIds, List.map_cons, List.nodup_cons] at hnd
    rcases List.mem_cons.mp hr with rfl | htl
    · exact List.find?_cons_of_pos _ (by simp [hid])
    · have hne : ¬ (a.session_id = sid) := by
        intro heq
        apply hnd.1
        rw [heq, ← hid]
        exact List.mem_map.mpr ⟨r, htl, rfl⟩
      rw [List.find?_cons_of_neg _ (by simp [hne])]
      exact ih hnd.2 htl

theorem cleanup_db {b : Backend} {sc : StoreConfig} {now : Int}
    {st : StoreState} :
    (cleanup_expired b sc now st).db =
      st.db.filter (fun r => !(isStale sc now r)) := rfl

theorem dbIds_sublist_of_filter {l : List SessionRecord} (f : SessionRecord → Bool) :
    List.Sublist (dbIds (l.filter f)) (dbIds l) :=
  List.Sublist.map _ (List.filter_sublist _)

theorem cleanup_find {b : Backend} {sc : StoreConfig} {now : Int}
    {st : StoreState} {r : SessionRecord} {sid : String}
    (hnd : (dbIds st.db).Nodup) (hr : r ∈ st.db) (hid : r.session_id = sid)
    (hstale : isStale sc now r = false) :
    (cleanup_expired b sc now st).db.find? (fun q => q.session_id == sid) = some r := by
  rw [cleanup_db]
  apply find?_record_eq ?_ ?_ hid
  · exact List.Nodup.sublist (dbIds_sublist_of_filter _) hnd
  · exact List.mem_filter.mpr ⟨hr, by simp [hstale]⟩

theorem dbIds_update (l : List SessionRecord) (sid : String) (now : Int) :
    dbIds (l.map (fun q =>
      if q.session_id == sid then { q with last_seen := now } else q)) = dbIds l := by
  unfold dbIds
  rw [List.map_map]
  apply List.map_congr_left
  intro q _
  by_cases h : q.session_id = sid <;> simp [h]

theorem find?_map_update {l : List SessionRecord} {r : SessionRecord}
    {sid : String} {now : Int}
    (hfind : l.find? (fun q => q.session_id == sid) = some r) :
    (l.map (fun q =>
        if q.session_id == sid then { q with last_seen := now } else q)).find?
      (fun q => q.session_id == sid) = some { r with last_seen := now } := by
  induction l with
  | nil => simp at hfind
  | cons a tl ih =>
    by_cases ha : a.session_id = sid
    · rw [List.find?_cons_of_pos _ (by simp [ha])] at hfind
      injection hfind with h
      subst h
      simp only [List.map_cons, if_pos (show (a.session_id == sid) = true by simp [ha])]
      exact List.find?_cons_of_pos _ (by simp [ha])
    · rw [List.find?_cons_of_neg _ (by simp [ha])] at hfind
      simp only [List.map_cons, if_neg (show ¬ ((a.session_id == sid) = true) by simp [ha])]
      rw [List.find?_cons_of_neg _ (by simp [ha])]
      exact ih hfind

theorem validate_empty {b : Backend} {sc : StoreConfig} {st : StoreState}
    {now : Int} : validate b sc st "" now = (st, .ok none) := by
  simp [validate]

theorem validate_not_found {b : Backend} {sc : StoreConfig} {st : StoreState}
    {sid : String} {now : Int} (hsid : sid ≠ "")
    (hfind : (cleanup_expired b sc now st).db.find?
      (fun q => q.session_id == sid) = none) :
    validate b sc st sid now = (cleanup_expired b sc now st, .ok none) := by
  simp [validate, hsid, hfind]

theorem validate_slot_null {b : Backend} {sc : StoreConfig} {st : StoreState}
    {sid : String} {now : Int} {r : SessionRecord} (hsid : sid ≠ "")
    (hfind : (cleanup_expired b sc now st).db.find?
      (fun q => q.session_id == sid) = some r)
    (hslot : r.display = none ∨ r.websocket_port = none) :
    validate b sc st sid now =
      ({ db := (cleanup_expired b sc now st).db.map (fun q =>
           if q.session_id == sid then { q with last_seen := now } else q),
         im := (cleanup_expired b sc now st).im }, .ok none) := by
  rcases hslot with h | h
  · cases hp : r.websocket_port <;> simp [validate, hsid, hfind, h, hp]
  · cases hd : r.display <;> simp [validate, hsid, hfind, h, hd]

theorem validate_ensure_result {b : Backend} {sc : StoreConfig}
    {st : StoreState} {sid : String} {now : Int} {r : SessionRecord}
    {d p : Nat} (hsid : sid ≠ "")
    (hfind : (cleanup_expired b sc now st).db.find?
      (fun q => q.session_id == sid) = some r)
    (hd : r.display = some d) (hp : r.websocket_port = some p) :
    validate b sc st sid now =
      (let st1 := cleanup_expired b sc now st
       let db2 := st1.db.map (fun q =>
         if q.session_id == sid then { q with last_seen := now } else q)
       match ensure_session b st1.im sid r.username d p with
       | (im2, .error e) => ({ db := db2, im := im2 }, .error e)
       | (im2, .ok _) =>
         ({ db := db2, im := im2 },
          .ok (some ⟨r.username, r.created_at, r.last_seen, d, p⟩))) := by
  simp [validate, hsid, hfind, hd, hp]

theorem ensure_keys_preserved {b : Backend} {st : IMState}
    {sid user : String} {d p : Nat} {j : String}
    (hj : j ∉ instKeys st.instances) (hne : j ≠ sid) :
    j ∉ instKeys (ensure_session b st sid user d p).1.instances := by
  cases hl : lookupInst st.instances sid with
  | some inst => rw [ensure_session_live hl]; exact hj
  | none =>
    cases hv : b.vncOk d with
    | false => rw [ensure_session_vncFail hl hv]; exact hj
    | true =>
      cases hdx : b.dosboxOk d with
      | false => rw [ensure_session_dosboxFail hl hv hdx]; exact hj
      | true =>
        cases hw : b.wsOk p with
        | false => rw [ensure_session_wsFail hl hv hdx hw]; exact hj
        | true =>
          rw [ensure_session_ok hl hv hdx hw]
          intro hmem
          rw [instKeys, List.map_cons] at hmem
          rcases List.mem_cons.mp hmem with h | h
          · exact hne h
          · exact hj h

theorem ensure_instances_on_error {b : Backend} {st : IMState}
    {sid user : String} {d p : Nat} {im2 : IMState} {e : String}
    (h : ensure_session b st sid user d p = (im2, .error e)) :
    im2.instances = st.instances := by
  cases hl : lookupInst st.instances sid with
  | some inst => rw [ensure_session_live hl] at h; simp at h
  | none =>
    cases hv : b.vncOk d with
    | false =>
      rw [ensure_session_vncFail hl hv, Prod.mk.injEq] at h
      rw [← h.1]
    | true =>
      cases hdx : b.dosboxOk d with
      | false =>
        rw [ensure_session_dosboxFail hl hv hdx, Prod.mk.injEq] at h
        rw [← h.1]
      | true =>
        cases hw : b.wsOk p with
        | false =>
          rw [ensure_session_wsFail hl hv hdx hw, Prod.mk.injEq] at h
          rw [← h.1]
        | true =>
          rw [ensure_session_ok hl hv hdx hw] at h
          simp at h


theorem start_session_instances_on_error {b : Backend} {cfg : IMConfig}
    {st : IMState} {sid user : String} {im3 : IMState} {e : String}
    (h : start_session b cfg st sid user = (im3, .error e)) :
    im3.instances = st.instances := by
  cases hl : lookupInst st.instances sid with
  | some inst => rw [start_session_live hl] at h; simp at h
  | none =>
    cases ha : allocate_slot cfg st.instances with
    | none =>
      rw [start_session_exhausted hl ha, Prod.mk.injEq] at h
      rw [← h.1]
    | some dp =>
      obtain ⟨d, p⟩ := dp
      cases hv : b.vncOk d with
      | false =>
        rw [start_session_vncFail hl ha hv, Prod.mk.injEq] at h
        rw [← h.1]
      | true =>
        cases hdx : b.dosboxOk d with
        | false =>
          rw [start_session_dosboxFail hl ha hv hdx, Prod.mk.injEq] at h
          rw [← h.1]
        | true =>
          cases hw : b.wsOk p with
          | false =>
            rw [start_session_wsFail hl ha hv hdx hw, Prod.mk.injEq] at h
            rw [← h.1]
          | true =>
            rw [start_session_ok hl ha hv hdx hw] at h
            simp at h

theorem start_session_error_form {b : Backend} {cfg : IMConfig}
    {st : IMState} {sid user : String} {im3 : IMState} {e : String}
    (h : start_session b cfg st sid user = (im3, .error e)) :
    e = slotsExhaustedMsg ∨ ∃ c, e = provisionFailMsg c := by
  cases hl : lookupInst st.instances sid with
  | some inst => rw [start_session_live hl] at h; simp at h
  | none =>
    cases ha : allocate_slot cfg st.instances with
    | none =>
      rw [start_session_exhausted hl ha, Prod.mk.injEq] at h
      exact Or.inl (by simpa using h.2.symm)
    | some dp =>
      obtain ⟨d, p⟩ := dp
      cases hv : b.vncOk d with
      | false =>
        rw [start_session_vncFail hl ha hv, Prod.mk.injEq] at h
        exact Or.inr ⟨vncFailMsg d, by simpa using h.2.symm⟩
      | true =>
        cases hdx : b.dosboxOk d with
        | false =>
          rw [start_session_dosboxFail hl ha hv hdx, Prod.mk.injEq] at h
          exact Or.inr ⟨dosboxFailMsg d, by simpa using h.2.symm⟩
        | true =>
          cases hw : b.wsOk p with
          | false =>
            rw [start_session_wsFail hl ha hv hdx hw, Prod.mk.injEq] at h
            exact Or.inr ⟨wsFailMsg p, by simpa using h.2.symm⟩
          | true =>
            rw [start_session_ok hl ha hv hdx hw] at h
            simp at h

/-! ### Claim C9: Absent outcomes of validate -/

/-- Claim C9: validate returns Absent (ok none) when the key is empty;
when no surviving record matches the key after the sweep (unknown key, or
a record the sweep of this very call just removed); and when the matched
record has a null display or port (never fully provisioned). -/
theorem claim_C9_absent_outcomes (b : Backend) (sc : StoreConfig)
    (st : StoreState) (sid : String) (now : Int) (r : SessionRecord)
    (hnd : (dbIds st.db).Nodup) :
    (validate b sc st "" now).2 = .ok none ∧
    ((sid ≠ "") → (∀ q ∈ st.db, q.session_id = sid → isStale sc now q = true) →
      (validate b sc st sid now).2 = .ok none) ∧
    ((sid ≠ "") → r ∈ st.db → r.session_id = sid → isStale sc now r = false →
      (r.display = none ∨ r.websocket_port = none) →
      (validate b sc st sid now).2 = .ok none) := by
  refine ⟨by rw [validate_empty], ?_, ?_⟩
  · intro hsid hall
    have hfind : (cleanup_expired b sc now st).db.find?
        (fun q => q.session_id == sid) = none := by
      rw [cleanup_db]
      apply List.find?_eq_none.mpr
      intro q hq
      obtain ⟨hqmem, hqpred⟩ := List.mem_filter.mp hq
      simp only [Bool.not_eq_true'] at hqpred
      simp only [beq_iff_eq]
      intro hqid
      rw [hall q hqmem hqid] at hqpred
      exact Bool.false_ne_true hqpred.symm
    rw [validate_not_found hsid hfind]
  · intro hsid hr hid hstale hslot
    have hfind := @cleanup_find b _ _ _ _ _ hnd hr hid hstale
    rw [validate_slot_null hsid hfind hslot]


theorem claim_C9_witness :
    (validate bAllW scW stC9 "s1" 50).2 = .ok none ∧
    (validate bAllW scW stC9 "s2" 50).2 = .ok none := by
  refine ⟨?_, ?_⟩
  · exact (claim_C9_absent_outcomes bAllW scW stC9 "s1" 50 recNullW (by decide)).2.1
      (by decide) (by decide)
  · exact (claim_C9_absent_outcomes bAllW scW stC9 "s2" 50 recNullW (by decide)).2.2
      (by decide) (by decide) (by decide) (by decide) (by decide)

/-! ### Claim C7: create failure atomicity (durable side) -/

/-- Claim C7: when provisioning fails during create, the error raised by
the manager (slots-exhausted or a provision failure) propagates and no
new durable record is persisted: the table is exactly the original minus
the owner's prior records, so the freshly generated session id is not in
it. -/
theorem claim_C7_create_failure_atomicity (b : Backend) (sc : StoreConfig)
    (st : StoreState) (sid user : String) (now : Int) (e : String)
    (hfresh : sid ∉ dbIds st.db)
    (herr : (create_session b sc st sid user now).2 = .error e) :
    (create_session b sc st sid user now).1.db =
      st.db.filter (fun r => !(r.username == user)) ∧
    sid ∉ dbIds (create_session b sc st sid user now).1.db ∧
    (e = slotsExhaustedMsg ∨ ∃ c, e = provisionFailMsg c) := by
  simp only [create_session] at herr ⊢
  split at herr
  next im3 e2 heq =>
    simp only [Except.error.injEq] at herr
    subst herr
    refine ⟨rfl, ?_, start_session_error_form heq⟩
    intro hmem
    exact hfresh ((dbIds_sublist_of_filter _).subset hmem)
  next im3 d p heq =>
    simp at herr

theorem claim_C7_witness :
    (create_session bWsFailW scW StoreState.empty "n" "u" 5).1.db = [] ∧
    "n" ∉ dbIds (create_session bWsFailW scW StoreState.empty "n" "u" 5).1.db := by
  have h := claim_C7_create_failure_atomicity bWsFailW scW StoreState.empty
    "n" "u" 5 (provisionFailMsg (wsFailMsg 7700)) (by decide) rfl
  exact ⟨h.1, h.2.1⟩

/-! ### Claim C10: create deletes the prior session before provisioning -/

/-- Claim C10: create durably deletes every record of the owner and tears
down their registry entries before provisioning; hence when provisioning
then fails, the owner is left with no session at all — no durable record
with their name remains and each prior session id is gone from the live
map. -/
theorem claim_C10_create_supersede_not_restored (b : Backend)
    (sc : StoreConfig) (st : StoreState) (sid user : String) (now : Int)
    (e : String)
    (herr : (create_session b sc st sid user now).2 = .error e) :
    (∀ r ∈ (create_session b sc st sid user now).1.db, r.username ≠ user) ∧
    (∀ r ∈ st.db, r.username = user →
      r.session_id ∉ instKeys (create_session b sc st sid user now).1.im.instances) := by
  simp only [create_session] at herr ⊢
  split at herr
  next im3 e2 heq =>
    constructor
    · intro r hrmem
      have h2 := (List.mem_filter.mp hrmem).2
      simpa using h2
    · intro r hrmem hru
      have hinst := start_session_instances_on_error heq
      show r.session_id ∉ instKeys im3.instances
      rw [hinst]
      apply foldl_stop_session_mem_removed
      exact List.mem_map.mpr ⟨r, List.mem_filter.mpr ⟨hrmem, by simp [hru]⟩, rfl⟩
  next im3 d p heq =>
    simp at herr

theorem claim_C10_witness :
    "s5" ∉ instKeys (create_session bWsFailW scW stC10 "n2" "u" 50).1.im.instances := by
  exact (claim_C10_create_supersede_not_restored bWsFailW scW stC10 "n2" "u" 50
    (provisionFailMsg (wsFailMsg 7700)) rfl).2 recC5W (by decide) rfl


/-! ### More lemmas about validate -/

theorem eq_of_dbIds_nodup {l : List SessionRecord} {q r : SessionRecord}
    (hnd : (dbIds l).Nodup) (hq : q ∈ l) (hr : r ∈ l)
    (h : q.session_id = r.session_id) : q = r :=
  List.inj_on_of_nodup_map hnd hq hr h

theorem stale_not_in_swept {sc : StoreConfig} {now : Int}
    {db : List SessionRecord} {rec : SessionRecord}
    (hnd : (dbIds db).Nodup) (hrec : rec ∈ db)
    (hstale : isStale sc now rec = true) :
    rec.session_id ∉ dbIds (db.filter (fun r => !(isStale sc now r))) := by
  intro hmem
  obtain ⟨q, hq, hqid⟩ := List.mem_map.mp hmem
  obtain ⟨hqmem, hqpred⟩ := List.mem_filter.mp hq
  simp only [Bool.not_eq_true'] at hqpred
  have heq : q = rec := eq_of_dbIds_nodup hnd hqmem hrec hqid
  rw [heq, hstale] at hqpred
  exact Bool.false_ne_true hqpred.symm

theorem cleanup_im {b : Backend} {sc : StoreConfig} {now : Int}
    {st : StoreState} :
    (cleanup_expired b sc now st).im =
      ((st.db.filter (isStale sc now)).map (·.session_id)).foldl
        (stop_session b) st.im := rfl

theorem validate_dbIds {b : Backend} {sc : StoreConfig} {st : StoreState}
    {sid : String} {now : Int} (hsid : sid ≠ "") :
    dbIds (validate b sc st sid now).1.db =
      dbIds (cleanup_expired b sc now st).db := by
  rcases hfind : (cleanup_expired b sc now st).db.find?
      (fun q => q.session_id == sid) with _ | r
  · rw [validate_not_found hsid hfind]
  · rcases hdo : r.display with _ | d
    · rw [validate_slot_null hsid hfind (Or.inl hdo)]
      exact dbIds_update _ _ _
    · rcases hpo : r.websocket_port with _ | p
      · rw [validate_slot_null hsid hfind (Or.inr hpo)]
        exact dbIds_update _ _ _
      · rw [validate_ensure_result hsid hfind hdo hpo]
        rcases hens : ensure_session b (cleanup_expired b sc now st).im sid
            r.username d p with ⟨im2, res⟩
        cases res <;> simp only [hens] <;> exact dbIds_update _ _ _

theorem validate_im_keys {b : Backend} {sc : StoreConfig} {st : StoreState}
    {sid : String} {now : Int} {j : String} (hsid : sid ≠ "")
    (hj : j ∉ instKeys (cleanup_expired b sc now st).im.instances)
    (hjdb : j ∉ dbIds (cleanup_expired b sc now st).db) :
    j ∉ instKeys (validate b sc st sid now).1.im.instances := by
  rcases hfind : (cleanup_expired b sc now st).db.find?
      (fun q => q.session_id == sid) with _ | r
  · rw [validate_not_found hsid hfind]
    exact hj
  · have hjs : j ≠ sid := by
      intro hjeq
      apply hjdb
      have hmem := List.mem_of_find?_eq_some hfind
      have hpred := List.find?_some hfind
      simp only [beq_iff_eq] at hpred
      rw [hjeq, ← hpred]
      exact List.mem_map.mpr ⟨r, hmem, rfl⟩
    rcases hdo : r.display with _ | d
    · rw [validate_slot_null hsid hfind (Or.inl hdo)]
      exact hj
    · rcases hpo : r.websocket_port with _ | p
      · rw [validate_slot_null hsid hfind (Or.inr hpo)]
        exact hj
      · rw [validate_ensure_result hsid hfind hdo hpo]
        have hkeys := @ensure_keys_preserved b
          (cleanup_expired b sc now st).im sid r.username d p j hj hjs
        rcases hens : ensure_session b (cleanup_expired b sc now st).im sid
            r.username d p with ⟨im2, res⟩
        rw [hens] at hkeys
        cases res <;> simpa only [hens] using hkeys

theorem cleanup_keys_preserved {b : Backend} {sc : StoreConfig} {now : Int}
    {st : StoreState} {j : String}
    (hj : j ∉ instKeys st.im.instances) :
    j ∉ instKeys (cleanup_expired b sc now st).im.instances := by
  rw [cleanup_im]
  exact foldl_stop_session_not_mem _ _ hj

theorem validate_resume_ok {b : Backend} {sc : StoreConfig} {st : StoreState}
    {sid : String} {now : Int} {r : SessionRecord} {d p : Nat}
    (hsid : sid ≠ "") (hnd : (dbIds st.db).Nodup)
    (hr : r ∈ st.db) (hid : r.session_id = sid)
    (hstale : isStale sc now r = false)
    (hdo : r.display = some d) (hpo : r.websocket_port = some p)
    (hnl : sid ∉ instKeys st.im.instances)
    (hv : b.vncOk d = true) (hdos : b.dosboxOk d = true)
    (hw : b.wsOk p = true) :
    (validate b sc st sid now).2 =
      .ok (some ⟨r.username, r.created_at, r.last_seen, d, p⟩) ∧
    (lookupInst (validate b sc st sid now).1.im.instances sid).map (·.display) =
      some d ∧
    (lookupInst (validate b sc st sid now).1.im.instances sid).map
      (·.websocket_port) = some p := by
  have hfind := @cleanup_find b _ _ _ _ _ hnd hr hid hstale
  have hnl1 := @cleanup_keys_preserved b sc now _ _ hnl
  have hlook := lookupInst_eq_none_iff_keys.mpr hnl1
  rw [validate_ensure_result hsid hfind hdo hpo]
  simp only [ensure_session_ok hlook hv hdos hw]
  refine ⟨?_, ?_, ?_⟩ <;> simp [lookupInst]

theorem validate_resume_fail {b : Backend} {sc : StoreConfig}
    {st : StoreState} {sid : String} {now : Int} {r : SessionRecord}
    {d p : Nat}
    (hsid : sid ≠ "") (hnd : (dbIds st.db).Nodup)
    (hr : r ∈ st.db) (hid : r.session_id = sid)
    (hstale : isStale sc now r = false)
    (hdo : r.display = some d) (hpo : r.websocket_port = some p)
    (hnl : sid ∉ instKeys st.im.instances)
    (hfail : ¬ (b.vncOk d = true ∧ b.dosboxOk d = true ∧ b.wsOk p = true)) :
    (validate b sc st sid now).2 =
      .error (resumeFailMsg (ensureFailCause b d p)) ∧
    ((validate b sc st sid now).1.db.find? (fun q => q.session_id == sid) =
      some { r with last_seen := now }) ∧
    (validate b sc st sid now).1.im.instances =
      (cleanup_expired b sc now st).im.instances := by
  have hfind := @cleanup_find b _ _ _ _ _ hnd hr hid hstale
  have hnl1 := @cleanup_keys_preserved b sc now _ _ hnl
  have hlook := lookupInst_eq_none_iff_keys.mpr hnl1
  rw [validate_ensure_result hsid hfind hdo hpo]
  cases hv : b.vncOk d with
  | false =>
    simp only [ensure_session_vncFail hlook hv]
    refine ⟨by simp [ensureFailCause, hv], find?_map_update hfind, by trivial⟩
  | true =>
    cases hdos : b.dosboxOk d with
    | false =>
      simp only [ensure_session_dosboxFail hlook hv hdos]
      refine ⟨by simp [ensureFailCause, hv, hdos], find?_map_update hfind, by trivial⟩
    | true =>
      cases hw : b.wsOk p with
      | false =>
        simp only [ensure_session_wsFail hlook hv hdos hw]
        refine ⟨by simp [ensureFailCause, hv, hdos, hw], find?_map_update hfind, by trivial⟩
      | true => exact absurd ⟨hv, hdos, hw⟩ hfail

theorem resume_ne_provision (c c2 : String) :
    resumeFailMsg c ≠ provisionFailMsg c2 := by
  intro h
  have hd := congrArg (fun s => s.data[10]?) h
  simp only [resumeFailMsg, provisionFailMsg, String.data_append] at hd
  rw [List.getElem?_append, List.getElem?_append] at hd
  simp at hd


/-! ### Claim C4: expiry sweep -/

/-- Claim C4 counterexample: a record with
`last_seen = now - idleTimeout - 1` (stale) is NOT removed by a validate
call with the empty key — such a call returns Absent before the sweep
runs, so the sweep does not happen at the start of every validate call
nor for any key. -/
theorem claim_C4_counterexample :
    recIdleW.last_seen = 50 - scW.idle_timeout - 1 ∧
    isStale scW 50 recIdleW = true ∧
    validate bAllW scW stC4idle "" 50 = (stC4idle, .ok none) := by
  exact ⟨by decide, by decide, rfl⟩

/-- Claim C4 (amended): at the start of every validate call with a
NON-empty key, exactly the durable records satisfying
`(now - lastSeenAt) > idleTimeout OR (now - createdAt) > absoluteTimeout`
are deleted and their registry entries torn down, and every other record
survives; a validate call with the empty key returns before sweeping. -/
theorem claim_C4_expiry_sweep (b : Backend) (sc : StoreConfig)
    (st : StoreState) (sid : String) (now : Int)
    (hsid : sid ≠ "") (hnd : (dbIds st.db).Nodup) :
    (∀ rec ∈ st.db, isStale sc now rec = true →
      rec.session_id ∉ dbIds (validate b sc st sid now).1.db ∧
      rec.session_id ∉ instKeys (validate b sc st sid now).1.im.instances) ∧
    (∀ rec ∈ st.db, isStale sc now rec = false →
      rec.session_id ∈ dbIds (validate b sc st sid now).1.db) := by
  constructor
  · intro rec hrec hstale
    have hdb : rec.session_id ∉ dbIds (cleanup_expired b sc now st).db := by
      rw [cleanup_db]
      exact stale_not_in_swept hnd hrec hstale
    have hkeys : rec.session_id ∉
        instKeys (cleanup_expired b sc now st).im.instances := by
      rw [cleanup_im]
      apply foldl_stop_session_mem_removed
      exact List.mem_map.mpr ⟨rec, List.mem_filter.mpr ⟨hrec, hstale⟩, rfl⟩
    exact ⟨by rw [validate_dbIds hsid]; exact hdb,
           validate_im_keys hsid hkeys hdb⟩
  · intro rec hrec hstale
    rw [validate_dbIds hsid, cleanup_db]
    exact List.mem_map.mpr ⟨rec, List.mem_filter.mpr ⟨hrec, by simp [hstale]⟩, rfl⟩

theorem claim_C4_witness :
    "s1" ∉ dbIds (validate bAllW scW stC4b "s3" 50).1.db ∧
    "s1" ∉ instKeys (validate bAllW scW stC4b "s3" 50).1.im.instances ∧
    "s3" ∈ dbIds (validate bAllW scW stC4b "s3" 50).1.db := by
  have h := claim_C4_expiry_sweep bAllW scW stC4b "s3" 50 (by decide) (by decide)
  have h1 := h.1 recStaleW (by decide) (by decide)
  exact ⟨h1.1, h1.2, h.2 recFreshW (by decide) (by decide)⟩

/-! ### Claim C5: resume idempotence -/

/-- Claim C5: a successful validate on a record whose LiveInstance is
absent from the registry re-provisions at exactly the display and port
stored in the durable record — not a freshly allocated slot — and when
the LiveInstance is already present the ensure call is a no-op. -/
theorem claim_C5_resume_idempotence (b : Backend) (sc : StoreConfig)
    (st : StoreState) (sid user : String) (now : Int) (r : SessionRecord)
    (d p : Nat) (inst0 : Instance) :
    ((sid ≠ "") → (dbIds st.db).Nodup → r ∈ st.db → r.session_id = sid →
      isStale sc now r = false → r.display = some d →
      r.websocket_port = some p → sid ∉ instKeys st.im.instances →
      b.vncOk d = true → b.dosboxOk d = true → b.wsOk p = true →
      (validate b sc st sid now).2 =
        .ok (some ⟨r.username, r.created_at, r.last_seen, d, p⟩) ∧
      (lookupInst (validate b sc st sid now).1.im.instances sid).map
        (·.display) = some d ∧
      (lookupInst (validate b sc st sid now).1.im.instances sid).map
        (·.websocket_port) = some p) ∧
    (lookupInst st.im.instances sid = some inst0 →
      ensure_session b st.im sid user d p = (st.im, .ok ())) := by
  exact ⟨fun hsid hnd hr hid hstale hdo hpo hnl hv hdos hw =>
    validate_resume_ok hsid hnd hr hid hstale hdo hpo hnl hv hdos hw,
    fun hl => ensure_session_live hl⟩

theorem claim_C5_witness :
    (validate bAllW scW stC5 "s5" 50).2 = .ok (some ⟨"u", 49, 49, 12, 7702⟩) ∧
    (lookupInst (validate bAllW scW stC5 "s5" 50).1.im.instances "s5").map
      (·.display) = some 12 ∧
    ensure_session bAllW imLiveW "s5" "u" 12 7702 = (imLiveW, .ok ()) := by
  have h := claim_C5_resume_idempotence bAllW scW stC5 "s5" "u" 50 recC5W
    12 7702 ⟨"s5", "u", 12, 7702, [0, 1]⟩
  have h1 := h.1 (by decide) (by decide) (by decide) (by decide) (by decide)
    (by decide) (by decide) (by decide) (by decide) (by decide) (by decide)
  have h2 := claim_C5_resume_idempotence bAllW scW stC10 "s5" "u" 50 recC5W
    12 7702 ⟨"s5", "u", 12, 7702, [0, 1]⟩
  exact ⟨h1.1, h1.2.1, h2.2 (by decide)⟩

/-! ### Claim C8: resume failure semantics -/

/-- Claim C8: when the ensure step of a validate call fails on a backend
error, the failure surfaces as a resume-failure InstanceError whose
message is distinct from every provision-failure message, after the same
terminate-style rollback (the live map is untouched); the durable record
remains with its slot intact (and refreshed last_seen), so a subsequent
validate for the same key retries the resume and, with a working
backend, succeeds at the recorded slot. -/
theorem claim_C8_resume_failure (b b2 : Backend) (sc : StoreConfig)
    (st : StoreState) (sid : String) (now now2 : Int) (r : SessionRecord)
    (d p : Nat) (c c2 : String)
    (hsid : sid ≠ "") (hnd : (dbIds st.db).Nodup) (hr : r ∈ st.db)
    (hid : r.session_id = sid) (hstale : isStale sc now r = false)
    (hdo : r.display = some d) (hpo : r.websocket_port = some p)
    (hnl : sid ∉ instKeys st.im.instances)
    (hfail : ¬ (b.vncOk d = true ∧ b.dosboxOk d = true ∧ b.wsOk p = true))
    (hstale2 : isStale sc now2 { r with last_seen := now } = false)
    (hv2 : b2.vncOk d = true) (hdos2 : b2.dosboxOk d = true)
    (hw2 : b2.wsOk p = true) :
    (validate b sc st sid now).2 =
      .error (resumeFailMsg (ensureFailCause b d p)) ∧
    resumeFailMsg c ≠ provisionFailMsg c2 ∧
    ((validate b sc st sid now).1.db.find? (fun q => q.session_id == sid) =
      some { r with last_seen := now }) ∧
    (validate b2 sc (validate b sc st sid now).1 sid now2).2 =
      .ok (some ⟨r.username, r.created_at, now, d, p⟩) := by
  obtain ⟨h1, h2, h3⟩ :=
    validate_resume_fail hsid hnd hr hid hstale hdo hpo hnl hfail
  refine ⟨h1, resume_ne_provision c c2, h2, ?_⟩
  have hnd1 : (dbIds (validate b sc st sid now).1.db).Nodup := by
    rw [validate_dbIds hsid, cleanup_db]
    exact List.Nodup.sublist (dbIds_sublist_of_filter _) hnd
  have hr1 : ({ r with last_seen := now } : SessionRecord) ∈
      (validate b sc st sid now).1.db := List.mem_of_find?_eq_some h2
  have hnl1 : sid ∉ instKeys (validate b sc st sid now).1.im.instances := by
    rw [show (validate b sc st sid now).1.im.instances =
      (cleanup_expired b sc now st).im.instances from h3]
    exact cleanup_keys_preserved hnl
  exact (validate_resume_ok hsid hnd1 hr1 hid hstale2 hdo hpo hnl1
    hv2 hdos2 hw2).1

theorem claim_C8_witness :
    (validate bWsFailW scW stC5 "s5" 50).2 =
      .error (resumeFailMsg (ensureFailCause bWsFailW 12 7702)) ∧
    (validate bAllW scW (validate bWsFailW scW stC5 "s5" 50).1 "s5" 51).2 =
      .ok (some ⟨"u", 49, 50, 12, 7702⟩) := by
  have h := claim_C8_resume_failure bWsFailW bAllW scW stC5 "s5" 50 51 recC5W
    12 7702 "x" "y" (by decide) (by decide) (by decide) (by decide)
    (by decide) (by decide) (by decide) (by decide) (by decide) (by decide)
    (by decide) (by decide) (by decide)
  exact ⟨h.1, h.2.2.2⟩


/-! ### Claim C3: single-owner invariant -/

theorem allocate_slot_nil {cfg : IMConfig} (hmax : 0 < cfg.max_instances) :
    allocate_slot cfg [] = some (cfg.base_display, cfg.base_websocket_port) := by
  obtain ⟨m, hm⟩ : ∃ m, cfg.max_instances = m + 1 :=
    ⟨cfg.max_instances - 1, by omega⟩
  unfold allocate_slot usedDisplays
  rw [hm]
  simp [findFree]

theorem create_session_from_empty (b : Backend) (sc : StoreConfig)
    (sid1 u : String) (now1 : Int)
    (hv : ∀ d, b.vncOk d = true) (hd : ∀ d, b.dosboxOk d = true)
    (hw : ∀ p, b.wsOk p = true) (hmax : 0 < sc.im_cfg.max_instances) :
    create_session b sc StoreState.empty sid1 u now1 =
      ({ db := [⟨sid1, u, some sc.im_cfg.base_display,
                 some sc.im_cfg.base_websocket_port, now1, now1⟩],
         im := { instances := [(sid1, ⟨sid1, u, sc.im_cfg.base_display,
                   sc.im_cfg.base_websocket_port, [0, 1]⟩)],
                 sys := { nextPid := 2,
                          procs := [⟨0, true, false, false⟩, ⟨1, true, false, false⟩],
                          vncUp := [sc.im_cfg.base_display] } } },
       .ok (sc.im_cfg.base_display, sc.im_cfg.base_websocket_port)) := by
  have hss1 := @start_session_ok b sc.im_cfg IMState.empty sid1 u _ _
    rfl (allocate_slot_nil hmax) (hv _) (hd _) (hw _)
  simp [create_session, StoreState.empty, IMState.empty, Sys.empty] at hss1 ⊢
  rw [hss1]

/-- Claim C3: after create is called twice in sequence for the same owner
(both calls succeeding, with distinct fresh session keys), exactly one
durable record for that owner exists — the second one — and the first
session's registry entry is gone: its key is no longer live and both of
its tracked processes have been stopped.  The second session reuses the
freed slot. -/
theorem claim_C3_single_owner (b : Backend) (sc : StoreConfig)
    (sid1 sid2 u : String) (now1 now2 : Int)
    (hok : allOk b) (hmax : 0 < sc.im_cfg.max_instances)
    (hsid : sid1 ≠ sid2) :
    (create_session b sc StoreState.empty sid1 u now1).2 =
      .ok (sc.im_cfg.base_display, sc.im_cfg.base_websocket_port) ∧
    (create_session b sc (create_session b sc StoreState.empty sid1 u now1).1
        sid2 u now2).2 =
      .ok (sc.im_cfg.base_display, sc.im_cfg.base_websocket_port) ∧
    (create_session b sc (create_session b sc StoreState.empty sid1 u now1).1
        sid2 u now2).1.db =
      [⟨sid2, u, some sc.im_cfg.base_display,
        some sc.im_cfg.base_websocket_port, now2, now2⟩] ∧
    instKeys (create_session b sc
        (create_session b sc StoreState.empty sid1 u now1).1
        sid2 u now2).1.im.instances = [sid2] ∧
    ∀ pr ∈ (create_session b sc
        (create_session b sc StoreState.empty sid1 u now1).1
        sid2 u now2).1.im.sys.procs, pr.pid < 2 → pr.running = false := by
  obtain ⟨hv, hd, hw⟩ := hok
  rw [create_session_from_empty b sc sid1 u now1 hv hd hw hmax]
  have hlook1 : lookupInst [(sid1, (⟨sid1, u, sc.im_cfg.base_display,
      sc.im_cfg.base_websocket_port, [0, 1]⟩ : Instance))] sid1 =
      some ⟨sid1, u, sc.im_cfg.base_display, sc.im_cfg.base_websocket_port,
        [0, 1]⟩ := by
    simp [lookupInst]
  cases hd0 : b.dies 0 <;> cases hd1 : b.dies 1 <;>
    simp [create_session, stop_session, hlook1, stopPids, stopPidFull, stopOne,
      vncKill, start_session, lookupInst, allocate_slot_nil hmax, startVnc,
      spawn, hv, hd, hw, instKeys, hd0, hd1]

theorem claim_C3_witness :
    (create_session bAllW scW
        (create_session bAllW scW StoreState.empty "a" "u" 1).1
        "c" "u" 2).1.db = [⟨"c", "u", some 11, some 7700, 2, 2⟩] ∧
    instKeys (create_session bAllW scW
        (create_session bAllW scW StoreState.empty "a" "u" 1).1
        "c" "u" 2).1.im.instances = ["c"] := by
  have h := claim_C3_single_owner bAllW scW "a" "c" "u" 1 2
    ⟨fun _ => rfl, fun _ => rfl, fun _ => rfl⟩ (by decide) (by decide)
  exact ⟨h.2.2.1, h.2.2.2.1⟩

end SecureDos
